import Mathlib

/-!
Verification of the dms-frontend task lifecycle core.

This file shallowly embeds the task data model, the Redis-backed task
repositories, the task service, the event processor handlers and the
key-expiration listener of the repository, and proves or refutes the
frozen behavioural claims about them.

Conventions of the embedding:
- timestamps are natural numbers threaded explicitly as a `now` argument;
- the Redis store is modelled as association lists from keys to values,
  with JSON serialization of records treated as the identity;
- the scheduler HTTP call performed by the event processor is abstracted
  into a `SchedulerOutcome` value describing how the call ended, mirroring
  the exception taxonomy of app/services/scheduler.py;
- Python truthiness checks on optional strings (such as `if log_entry:` and
  `if service and ...`) are embedded faithfully: the empty string counts as
  absent.
-/

/-- Lifecycle stages of a task, from app/services/models.py and
task_state/models.py (`TaskStatus`). -/
inductive TaskStatus where
  | pending
  | dispatching
  | running
  | completed
  | failed
  | cancelRequested
  | cancelled
  deriving DecidableEq

/-- Task priority, from task_state/models.py (`PriorityLevel`). -/
inductive PriorityLevel where
  | high
  | low
  deriving DecidableEq

/-- Structured result payload, from task_state/models.py (`TaskResult`). -/
structure TaskResult where
  podStatus : Option String := none
  launcherOutput : Option String := none
  deriving DecidableEq

/-- Serializable task record, from task_state/models.py (`TaskRecord`);
the variant in app/services/models.py has the same fields minus result
and priority. Task parameters are opaque to the core and modelled as an
association list of strings. -/
structure TaskRecord where
  taskId : String
  service : String
  userId : String
  status : TaskStatus
  parameters : List (String × String) := []
  createdAt : Nat := 0
  updatedAt : Nat := 0
  logs : List String := []
  result : TaskResult := {}
  priority : PriorityLevel := .low
  deriving DecidableEq

/-- Functional update of an association list at a key (model of a Redis
SET command on a string key). -/
def kvSet {α : Type} (l : List (String × α)) (k : String) (v : α) : List (String × α) :=
  match l with
  | [] => [(k, v)]
  | (k1, v1) :: rest => if k1 = k then (k, v) :: rest else (k1, v1) :: kvSet rest k v

/-- Lookup in an association list (model of a Redis GET command). -/
def kvGet {α : Type} (l : List (String × α)) (k : String) : Option α :=
  match l with
  | [] => none
  | (k1, v1) :: rest => if k1 = k then some v1 else kvGet rest k

/-- Add a member to a set value if not already present. -/
def memberAdd (ms : List String) (m : String) : List String :=
  if m ∈ ms then ms else ms ++ [m]

/-- Model of a Redis SADD command over an association list of set keys. -/
def saddList (l : List (String × List String)) (k m : String) : List (String × List String) :=
  match l with
  | [] => [(k, [m])]
  | (k1, ms) :: rest => if k1 = k then (k1, memberAdd ms m) :: rest else (k1, ms) :: saddList rest k m

/-- Key of the primary task record, `task:{id}`, from the `_task_key`
helpers of both repository files. -/
def taskKey (taskId : String) : String := "task:" ++ taskId

/-- Key `index:service:{service}` from the `_service_index` helpers. -/
def serviceIndexKey (service : String) : String := "index:service:" ++ service

/-- Key `index:service:{service}:user:{user_id}` from the
`_service_user_index` helpers. -/
def serviceUserIndexKey (service userId : String) : String :=
  "index:service:" ++ service ++ ":user:" ++ userId

/-- Key `index:service:{service}:users` from the `_service_users_index`
helper of task_state/repository.py. -/
def serviceUsersIndexKey (service : String) : String :=
  "index:service:" ++ service ++ ":users"

/-- Key of the metadata breadcrumb, `task:{id}:metadata`, as used by the
repository tests and the spec. -/
def metadataKey (taskId : String) : String := taskKey taskId ++ ":metadata"

/-- State of the store as seen by app/services/repository.py
(`RedisTaskRepository`): string keys holding task records, set keys, and
the id sequence counter. That file applies no TTLs and keeps no users
index, so none are modelled here. -/
structure AppState where
  kv : List (String × TaskRecord)
  sets : List (String × List String)
  counter : Nat
  deriving DecidableEq

/-- The empty store. -/
def emptyAppState : AppState := { kv := [], sets := [], counter := 0 }

/-- Embeds `RedisTaskRepository.next_task_id` of app/services/repository.py:
atomic increment of the counter, returned in decimal form. -/
def appNextTaskId (st : AppState) : AppState × String :=
  let n := st.counter + 1
  ({ st with counter := n }, toString n)

/-- Embeds `RedisTaskRepository.save` of app/services/repository.py: writes
the record under `task:{id}` and adds the id to the three indexes that
file maintains (index:tasks, per-service, per-service-user). -/
def appSave (st : AppState) (task : TaskRecord) : AppState :=
  { st with
    kv := kvSet st.kv (taskKey task.taskId) task,
    sets :=
      saddList
        (saddList (saddList st.sets "index:tasks" task.taskId)
          (serviceIndexKey task.service) task.taskId)
        (serviceUserIndexKey task.service task.userId) task.taskId }

/-- Embeds `RedisTaskRepository.get` of app/services/repository.py. -/
def appGet (st : AppState) (taskId : String) : Option TaskRecord :=
  kvGet st.kv (taskKey taskId)

/-- The record produced by the read-modify-write of `set_status`: status
replaced, `updated_at` advanced, and the log entry appended when the
optional argument is truthy (Python `if log_entry:` treats the empty
string as absent). -/
def statusUpdatedRecord (task : TaskRecord) (now : Nat) (status : TaskStatus)
    (logEntry : Option String) : TaskRecord :=
  { task with
    status := status,
    updatedAt := now,
    logs :=
      match logEntry with
      | some entry => if entry = "" then task.logs else task.logs ++ [entry]
      | none => task.logs }

/-- The record produced by the read-modify-write of `append_log`: log
appended unconditionally and `updated_at` advanced. -/
def logAppendedRecord (task : TaskRecord) (now : Nat) (message : String) : TaskRecord :=
  { task with logs := task.logs ++ [message], updatedAt := now }

/-- Embeds `RedisTaskRepository.set_status` of app/services/repository.py:
read, mutate, re-save; returns none when the task is absent. -/
def appSetStatus (st : AppState) (now : Nat) (taskId : String) (status : TaskStatus)
    (logEntry : Option String) : AppState × Option TaskRecord :=
  match appGet st taskId with
  | none => (st, none)
  | some task =>
    (appSave st (statusUpdatedRecord task now status logEntry),
     some (statusUpdatedRecord task now status logEntry))

/-- Embeds `RedisTaskRepository.append_log` of app/services/repository.py. -/
def appAppendLog (st : AppState) (now : Nat) (taskId : String) (message : String) :
    AppState × Option TaskRecord :=
  match appGet st taskId with
  | none => (st, none)
  | some task =>
    (appSave st (logAppendedRecord task now message), some (logAppendedRecord task now message))

/-- State of the store as seen by task_state/repository.py
(`RedisTaskRepository`): string keys holding task records, set keys, hash
keys (the metadata breadcrumb would live here), per-key TTL stamps, and
the id sequence counter. -/
structure RedisState where
  tasks : List (String × TaskRecord)
  sets : List (String × List String)
  hashes : List (String × List (String × String))
  ttls : List (String × Nat)
  counter : Nat
  deriving DecidableEq

/-- The empty TTL-aware store. -/
def emptyRedisState : RedisState :=
  { tasks := [], sets := [], hashes := [], ttls := [], counter := 0 }

/-- Model of `writer.set(key, value, ex=ttl)`: stores the record and stamps
its TTL. -/
def redisSetTask (st : RedisState) (key : String) (task : TaskRecord) (ex : Nat) : RedisState :=
  { st with tasks := kvSet st.tasks key task, ttls := kvSet st.ttls key ex }

/-- Model of `writer.sadd(key, member)`. -/
def redisSadd (st : RedisState) (key member : String) : RedisState :=
  { st with sets := saddList st.sets key member }

/-- Model of `writer.expire(key, seconds)`, as used by `_ensure_ttl`. -/
def redisExpire (st : RedisState) (key : String) (seconds : Nat) : RedisState :=
  { st with ttls := kvSet st.ttls key seconds }

/-- Model of `writer.hset(key, mapping=...)`. The repository test
test_save_applies_ttl_to_all_keys expects `save` to invoke it for the
metadata breadcrumb, but no code under src issues an hset. -/
def redisHset (st : RedisState) (key : String) (mapping : List (String × String)) : RedisState :=
  { st with hashes := kvSet st.hashes key mapping }

/-- Embeds `RedisTaskRepository.save` of task_state/repository.py (lines
76 to 94): writes the record under `task:{id}` with TTL, then adds the id
to index:tasks, the per-service index and the per-service-user index and
the user id to the per-service users index, re-stamping the TTL of each
index key. No metadata breadcrumb is written by this function. -/
def tsSave (ttlSeconds : Nat) (st : RedisState) (task : TaskRecord) : RedisState :=
  let st1 := redisSetTask st (taskKey task.taskId) task ttlSeconds
  let st2 := redisExpire (redisSadd st1 "index:tasks" task.taskId) "index:tasks" ttlSeconds
  let st3 :=
    redisExpire (redisSadd st2 (serviceIndexKey task.service) task.taskId)
      (serviceIndexKey task.service) ttlSeconds
  let st4 :=
    redisExpire (redisSadd st3 (serviceUsersIndexKey task.service) task.userId)
      (serviceUsersIndexKey task.service) ttlSeconds
  redisExpire (redisSadd st4 (serviceUserIndexKey task.service task.userId) task.taskId)
    (serviceUserIndexKey task.service task.userId) ttlSeconds

/-- Embeds `RedisTaskRepository.get` of task_state/repository.py. -/
def tsGet (st : RedisState) (taskId : String) : Option TaskRecord :=
  kvGet st.tasks (taskKey taskId)

/-- Embeds `RedisTaskRepository.set_status` of task_state/repository.py
(lines 114 to 125). -/
def tsSetStatus (ttlSeconds : Nat) (st : RedisState) (now : Nat) (taskId : String)
    (status : TaskStatus) (logEntry : Option String) : RedisState × Option TaskRecord :=
  match tsGet st taskId with
  | none => (st, none)
  | some task =>
    (tsSave ttlSeconds st (statusUpdatedRecord task now status logEntry),
     some (statusUpdatedRecord task now status logEntry))

/-- Embeds `RedisTaskRepository.append_log` of task_state/repository.py
(lines 127 to 134). -/
def tsAppendLog (ttlSeconds : Nat) (st : RedisState) (now : Nat) (taskId : String)
    (message : String) : RedisState × Option TaskRecord :=
  match tsGet st taskId with
  | none => (st, none)
  | some task =>
    (tsSave ttlSeconds st (logAppendedRecord task now message),
     some (logAppendedRecord task now message))

/-- Outcome of a scheduler HTTP call, mirroring the error taxonomy of
app/services/scheduler.py: success, `SchedulerResponseError` with a status
code and response body, `SchedulerUnavailableError` with url and cause, or
any other exception. -/
inductive SchedulerOutcome where
  | ok
  | responseError (statusCode : Nat) (responseText : String) (url : String)
  | unavailable (url : String) (cause : String)
  | failure (message : String)
  deriving DecidableEq

/-- The log line written on a scheduler error response, from the f-string
in event_processor.py. -/
def schedulerReturnedLog (code : Nat) (body : String) : String :=
  "Scheduler returned " ++ toString code ++ ": " ++ body

/-- The log line written when the scheduler is unreachable, from the
f-string in event_processor.py. -/
def schedulerUnavailableLog (url cause : String) : String :=
  "Scheduler unavailable at " ++ url ++ ": " ++ cause

/-- Embeds `TaskEventProcessor._handle_task_submission` of
app/services/event_processor.py (lines 72 to 116). The try block first
flips the task to DISPATCHING with a log, then calls the scheduler; the
except clauses set FAILED on unavailability, on a 403 or 404 response and
on any other exception, while a response error with any other status code
only logs to the operator and leaves the store as it was after the
DISPATCHING flip; the else clause flips to RUNNING after appending the
acknowledgement log. -/
def handleTaskSubmission (outcome : SchedulerOutcome) (now : Nat) (st : AppState)
    (taskId : String) : AppState :=
  let st1 := (appSetStatus st now taskId .dispatching (some "Dispatching to scheduler")).1
  match outcome with
  | .ok =>
    let st2 := (appAppendLog st1 now taskId "Scheduler acknowledged submission").1
    (appSetStatus st2 now taskId .running none).1
  | .responseError code body _url =>
    if code = 403 ∨ code = 404 then
      (appSetStatus st1 now taskId .failed (some (schedulerReturnedLog code body))).1
    else st1
  | .unavailable url cause =>
    (appSetStatus st1 now taskId .failed (some (schedulerUnavailableLog url cause))).1
  | .failure msg =>
    (appSetStatus st1 now taskId .failed (some msg)).1

/-- Embeds `TaskEventProcessor._handle_task_cancellation` of
app/services/event_processor.py (lines 118 to 157). The local variable
failure_status is assigned only in the 403 or 404 branch of the response
error handler; the trailing conditional therefore sets FAILED exactly
there and otherwise sets CANCELLED with the Task cancelled log, including
after a response error with another status code, after unavailability
(which first appends a log) and after any other exception (likewise). -/
def handleTaskCancellation (outcome : SchedulerOutcome) (now : Nat) (st : AppState)
    (taskId : String) : AppState :=
  match outcome with
  | .ok => (appSetStatus st now taskId .cancelled (some "Task cancelled")).1
  | .responseError code body _url =>
    if code = 403 ∨ code = 404 then
      (appSetStatus st now taskId .failed (some (schedulerReturnedLog code body))).1
    else
      (appSetStatus st now taskId .cancelled (some "Task cancelled")).1
  | .unavailable url cause =>
    let st1 := (appAppendLog st now taskId (schedulerUnavailableLog url cause)).1
    (appSetStatus st1 now taskId .cancelled (some "Task cancelled")).1
  | .failure msg =>
    let st1 := (appAppendLog st now taskId ("Cancellation error: " ++ msg)).1
    (appSetStatus st1 now taskId .cancelled (some "Task cancelled")).1

/-- Worker-pool bookkeeping of `TaskEventProcessor.__init__`: the stored
worker count. -/
structure TaskEventProcessor where
  workerCount : Int
  deriving DecidableEq

/-- Embeds the constructor of `TaskEventProcessor` (line 27 of
app/services/event_processor.py): the effective worker count is
max(1, worker_count). -/
def mkTaskEventProcessor (workerCount : Int) : TaskEventProcessor :=
  { workerCount := max 1 workerCount }

/-- Embeds `TaskEventProcessor.start`: one worker task is created per unit
of the stored worker count. -/
def startWorkers (p : TaskEventProcessor) : List Nat :=
  List.range p.workerCount.toNat

/-- Event types from app/core/events.py. -/
inductive EventType where
  | taskSubmitted
  | taskCancelled
  deriving DecidableEq

/-- Lifecycle event from app/core/events.py, with the payload fields used
by the task service and the event processor. -/
structure Event where
  type : EventType
  taskId : String
  service : String
  userId : String
  parameters : List (String × String) := []
  deriving DecidableEq

/-- Python condition `filter and value != filter` used by the ownership
checks of `TaskService.cancel_task`: an absent or empty filter never
mismatches. -/
def filterMismatch (filter : Option String) (value : String) : Bool :=
  match filter with
  | none => false
  | some s => if s = "" then false else decide (value ≠ s)

/-- Membership in the terminal set checked by `TaskService.cancel_task`. -/
def terminalStatus : TaskStatus → Bool
  | .cancelled => true
  | .completed => true
  | .failed => true
  | _ => false

/-- Embeds `TaskService.cancel_task` of app/services/tasks.py (lines 56 to
92): fetch, apply ownership filters, return a terminal record unchanged
without publishing, otherwise ensure CANCEL_REQUESTED and publish one
TASK_CANCELLED event built from the resulting record. The returned triple
is the final store, the published events and the returned record. -/
def cancelTask (st : AppState) (now : Nat) (taskId : String)
    (serviceFilter userFilter : Option String) : AppState × List Event × Option TaskRecord :=
  match appGet st taskId with
  | none => (st, [], none)
  | some record =>
    if filterMismatch serviceFilter record.service then (st, [], none)
    else if filterMismatch userFilter record.userId then (st, [], none)
    else if terminalStatus record.status then (st, [], some record)
    else
      let step :=
        if record.status ≠ .cancelRequested then
          appSetStatus st now taskId .cancelRequested (some "Cancellation requested")
        else (st, some record)
      match step with
      | (st1, none) => (st1, [], none)
      | (st1, some record1) =>
        (st1,
         [{ type := .taskCancelled, taskId := taskId,
            service := record1.service, userId := record1.userId }],
         some record1)

/-- Embeds `TaskService.update_status` of app/services/tasks.py (lines 104
to 105): a direct delegation to the repository set_status with no guard of
any kind. -/
def updateStatus (st : AppState) (now : Nat) (taskId : String) (status : TaskStatus)
    (logEntry : Option String) : AppState × Option TaskRecord :=
  appSetStatus st now taskId status logEntry

/-- Character-list prefix test used to embed the Python
`key.startswith("task:")` check of the expiration listener. -/
def beginsWith : List Char → List Char → Bool
  | [], _ => true
  | _ :: _, [] => false
  | c :: cs, d :: ds => c = d && beginsWith cs ds

/-- Embeds `TaskExpirationSubscriber._handle_message` of
task_state/redis.py (lines 206 to 215): a payload starting with `task:`
yields the argument passed to `repository.handle_task_expired` (the
payload with the five-character prefix removed, as by Python
removeprefix); any other payload is ignored (result none). -/
def handleExpirationMessage (payload : String) : Option String :=
  if beginsWith "task:".data payload.data then some (String.mk (payload.data.drop 5))
  else none

/-- A task awaiting cancellation resolution, used to evaluate the
cancellation handler. -/
def c1Record : TaskRecord :=
  { taskId := "1", service := "sync", userId := "alice", status := .cancelRequested }

/-- Store holding only c1Record under its task key. -/
def c1State : AppState := { kv := [(taskKey "1", c1Record)], sets := [], counter := 1 }

/-- The store after the cancellation handler runs against a scheduler that
answers 500, a status code outside the 403 or 404 set. -/
def c1After : AppState :=
  handleTaskCancellation (.responseError 500 "boom" "http://scheduler") 9 c1State "1"

/-- A task already in the terminal COMPLETED status. -/
def c2Record : TaskRecord :=
  { taskId := "9", service := "sync", userId := "bob", status := .completed }

/-- Store holding only c2Record under its task key. -/
def c2State : AppState := { kv := [(taskKey "9", c2Record)], sets := [], counter := 9 }

/-- A freshly created pending task, as in the submission tests. -/
def c3WitTask : TaskRecord :=
  { taskId := "2", service := "sync", userId := "bob", status := .pending }

/-- Store holding only c3WitTask under its task key. -/
def c3WitState : AppState := { kv := [(taskKey "2", c3WitTask)], sets := [], counter := 2 }

/-- The pending task of the 404-on-submit scenario of the test suite
(test_scheduler_error_404_logged_without_state_change). -/
def c4Record : TaskRecord :=
  { taskId := "3", service := "sync", userId := "carol", status := .pending }

/-- Store holding only c4Record under its task key. -/
def c4State : AppState := { kv := [(taskKey "3", c4Record)], sets := [], counter := 3 }

/-- The store after the submission handler runs against a scheduler that
answers 404 with body Not found. -/
def c4After : AppState :=
  handleTaskSubmission (.responseError 404 "Not found" "http://scheduler") 7 c4State "3"

/-- The task of the repository TTL test (test_save_applies_ttl_to_all_keys). -/
def c5Task : TaskRecord :=
  { taskId := "1", service := "svc", userId := "user", status := .pending }

/-- The TTL-aware store after saving c5Task with TTL 1234 into an empty
store. -/
def c5Saved : RedisState := tsSave 1234 emptyRedisState c5Task

/-- A pending task used to inspect stored log entries. -/
def c7Record : TaskRecord :=
  { taskId := "1", service := "sync", userId := "alice", status := .pending }

/-- Store holding only c7Record under its task key. -/
def c7State : AppState := { kv := [(taskKey "1", c7Record)], sets := [], counter := 1 }

/-- The store after the DISPATCHING flip with its log entry. -/
def c7After : AppState :=
  (appSetStatus c7State 5 "1" .dispatching (some "Dispatching to scheduler")).1

/-- The store after additionally appending the acknowledgement log. -/
def c7After2 : AppState :=
  (appAppendLog c7After 6 "1" "Scheduler acknowledged submission").1

/-- A task already in the terminal COMPLETED status, owned by dana. -/
def c8Record : TaskRecord :=
  { taskId := "4", service := "sync", userId := "dana", status := .completed }

/-- Store holding only c8Record under its task key. -/
def c8State : AppState := { kv := [(taskKey "4", c8Record)], sets := [], counter := 4 }

/-- A running task used to exercise the non-terminal cancellation branch. -/
def c8WitRecord : TaskRecord :=
  { taskId := "5", service := "sync", userId := "erin", status := .running }

/-- Store holding only c8WitRecord under its task key. -/
def c8WitState : AppState := { kv := [(taskKey "5", c8WitRecord)], sets := [], counter := 5 }

theorem kvGet_kvSet_self {α : Type} (l : List (String × α)) (k : String) (v : α) :
    kvGet (kvSet l k v) k = some v := by
  induction l with
  | nil => simp [kvGet, kvSet]
  | cons head rest ih =>
    obtain ⟨k1, v1⟩ := head
    by_cases h : k1 = k
    · simp [kvSet, kvGet, h]
    · simp [kvSet, kvGet, h, ih]

theorem appGet_appSave (st : AppState) (task : TaskRecord) :
    appGet (appSave st task) task.taskId = some task := by
  simp [appGet, appSave, kvGet_kvSet_self]

theorem statusUpdatedRecord_taskId (task : TaskRecord) (now : Nat) (status : TaskStatus)
    (logEntry : Option String) :
    (statusUpdatedRecord task now status logEntry).taskId = task.taskId := rfl

theorem logAppendedRecord_taskId (task : TaskRecord) (now : Nat) (message : String) :
    (logAppendedRecord task now message).taskId = task.taskId := rfl

theorem appSetStatus_found (st : AppState) (now : Nat) (taskId : String) (status : TaskStatus)
    (logEntry : Option String) (task : TaskRecord) (h : appGet st taskId = some task) :
    appSetStatus st now taskId status logEntry
      = (appSave st (statusUpdatedRecord task now status logEntry),
         some (statusUpdatedRecord task now status logEntry)) := by
  simp [appSetStatus, h]

theorem appAppendLog_found (st : AppState) (now : Nat) (taskId : String) (message : String)
    (task : TaskRecord) (h : appGet st taskId = some task) :
    appAppendLog st now taskId message
      = (appSave st (logAppendedRecord task now message),
         some (logAppendedRecord task now message)) := by
  simp [appAppendLog, h]

theorem appGet_setStatus (st : AppState) (now : Nat) (status : TaskStatus)
    (logEntry : Option String) (task : TaskRecord) (h : appGet st task.taskId = some task) :
    appGet (appSetStatus st now task.taskId status logEntry).1 task.taskId
      = some (statusUpdatedRecord task now status logEntry) := by
  rw [appSetStatus_found st now task.taskId status logEntry task h]
  have h2 := appGet_appSave st (statusUpdatedRecord task now status logEntry)
  rwa [statusUpdatedRecord_taskId] at h2

theorem appGet_appendLog (st : AppState) (now : Nat) (message : String)
    (task : TaskRecord) (h : appGet st task.taskId = some task) :
    appGet (appAppendLog st now task.taskId message).1 task.taskId
      = some (logAppendedRecord task now message) := by
  rw [appAppendLog_found st now task.taskId message task h]
  have h2 := appGet_appSave st (logAppendedRecord task now message)
  rwa [logAppendedRecord_taskId] at h2

theorem statusUpdatedRecord_of_ne_empty (task : TaskRecord) (now : Nat) (status : TaskStatus)
    (entry : String) (hne : entry ≠ "") :
    statusUpdatedRecord task now status (some entry)
      = { task with status := status, updatedAt := now, logs := task.logs ++ [entry] } := by
  simp [statusUpdatedRecord, hne]

theorem statusUpdatedRecord_none_log (task : TaskRecord) (now : Nat) (status : TaskStatus) :
    statusUpdatedRecord task now status none
      = { task with status := status, updatedAt := now } := by
  simp [statusUpdatedRecord]

theorem schedulerReturnedLog_ne_empty (code : Nat) (body : String) :
    schedulerReturnedLog code body ≠ "" := by
  intro hcontra
  have hlen := congrArg String.length hcontra
  have h19 : ("Scheduler returned " : String).length = 19 := rfl
  simp [schedulerReturnedLog, String.length_append, h19] at hlen

theorem schedulerUnavailableLog_ne_empty (url cause : String) :
    schedulerUnavailableLog url cause ≠ "" := by
  intro hcontra
  have hlen := congrArg String.length hcontra
  have h25 : ("Scheduler unavailable at " : String).length = 25 := rfl
  simp [schedulerUnavailableLog, String.length_append, h25] at hlen

theorem appGet_setStatus_at (st : AppState) (now : Nat) (taskId : String) (status : TaskStatus)
    (logEntry : Option String) (task : TaskRecord) (h : appGet st taskId = some task)
    (hid : task.taskId = taskId) :
    appGet (appSetStatus st now taskId status logEntry).1 taskId
      = some (statusUpdatedRecord task now status logEntry) := by
  subst hid
  exact appGet_setStatus st now status logEntry task h

theorem appGet_appendLog_at (st : AppState) (now : Nat) (taskId : String) (message : String)
    (task : TaskRecord) (h : appGet st taskId = some task) (hid : task.taskId = taskId) :
    appGet (appAppendLog st now taskId message).1 taskId
      = some (logAppendedRecord task now message) := by
  subst hid
  exact appGet_appendLog st now message task h

/-- C10: constructing a TaskEventProcessor with any worker count, zero and
negative values included, stores max(1, worker_count) as the effective
worker count, so start launches that many workers and always at least
one. -/
theorem c10_effective_worker_count (c : Int) :
    (mkTaskEventProcessor c).workerCount = max 1 c
    ∧ (startWorkers (mkTaskEventProcessor c)).length = (max 1 c).toNat
    ∧ 1 ≤ (startWorkers (mkTaskEventProcessor c)).length := by
  refine ⟨rfl, by simp [startWorkers, mkTaskEventProcessor], ?_⟩
  simp only [startWorkers, mkTaskEventProcessor, List.length_range]
  rcases le_total c 1 with hc | hc
  · rw [max_eq_left hc]
    decide
  · rw [max_eq_right hc]
    omega

/-- C9: for a task id absent from the store, set_status and append_log of
both repository variants return none and leave the store exactly as it
was: no record, log or index is touched. -/
theorem c9_missing_task_is_noop (stA : AppState) (stR : RedisState) (ttl now : Nat)
    (taskId : String) (status : TaskStatus) (logEntry : Option String) (message : String)
    (hA : appGet stA taskId = none) (hR : tsGet stR taskId = none) :
    appSetStatus stA now taskId status logEntry = (stA, none)
    ∧ appAppendLog stA now taskId message = (stA, none)
    ∧ tsSetStatus ttl stR now taskId status logEntry = (stR, none)
    ∧ tsAppendLog ttl stR now taskId message = (stR, none) := by
  refine ⟨?_, ?_, ?_, ?_⟩ <;>
    simp [appSetStatus, appAppendLog, tsSetStatus, tsAppendLog, hA, hR]

/-- C9 witness: the empty stores hold no task 77, and all four operations
leave them untouched while returning none. -/
theorem c9_missing_task_witness :
    appGet emptyAppState "77" = none
    ∧ tsGet emptyRedisState "77" = none
    ∧ (appSetStatus emptyAppState 1 "77" .failed (some "boom") = (emptyAppState, none)
       ∧ appAppendLog emptyAppState 1 "77" "note" = (emptyAppState, none)
       ∧ tsSetStatus 60 emptyRedisState 1 "77" .failed (some "boom") = (emptyRedisState, none)
       ∧ tsAppendLog 60 emptyRedisState 1 "77" "note" = (emptyRedisState, none)) :=
  ⟨by decide, by decide,
   c9_missing_task_is_noop emptyAppState emptyRedisState 60 1 "77" .failed (some "boom") "note"
     (by decide) (by decide)⟩

/-- C6 counterexample: the expiration of the metadata breadcrumb key
task:1:metadata does trigger the handler, with the derived id 1:metadata,
contradicting the claim that breadcrumb expirations are filtered out. -/
theorem c6_breadcrumb_triggers_handler :
    handleExpirationMessage (metadataKey "1") = some "1:metadata"
    ∧ handleExpirationMessage (metadataKey "1") ≠ none := by
  decide

/-- C6 amended: the listener derives the task id and invokes
handle_task_expired for every expired key beginning with task:, the
metadata breadcrumb included; keys without that prefix are ignored. -/
theorem c6_every_task_key_triggers_handler (payload : String)
    (h : beginsWith "task:".data payload.data = true) :
    handleExpirationMessage payload = some (String.mk (payload.data.drop 5)) := by
  simp [handleExpirationMessage, h]

/-- C6 amended witness: a plain task key expiration is handled with the id
after the prefix. -/
theorem c6_amended_witness :
    handleExpirationMessage "task:9" = some (String.mk ("task:9".data.drop 5))
    ∧ String.mk ("task:9".data.drop 5) = "9" :=
  ⟨c6_every_task_key_triggers_handler "task:9" (by decide), by decide⟩

/-- C2 counterexample: update_status moves a COMPLETED task back to
PENDING instead of ignoring the forbidden transition: the returned record
has the new status and differs from the stored record, and the store is
mutated. -/
theorem c2_terminal_transition_performed :
    ((updateStatus c2State 11 "9" .pending none).2).map TaskRecord.status = some .pending
    ∧ (appGet (updateStatus c2State 11 "9" .pending none).1 "9").map TaskRecord.status
        = some .pending
    ∧ (updateStatus c2State 11 "9" .pending none).2 ≠ some c2Record
    ∧ (updateStatus c2State 11 "9" .pending none).1 ≠ c2State := by
  decide

/-- C2 amended: a status mutation through TaskService.update_status is
applied unconditionally whenever the task exists, whatever the source and
destination statuses; the section 4.3 table is not enforced there, and in
particular a terminal task can be moved to a non-terminal status. Only
cancel_task guards terminal statuses. -/
theorem c2_update_status_unguarded (st : AppState) (now : Nat) (taskId : String)
    (status : TaskStatus) (logEntry : Option String) (task : TaskRecord)
    (h : appGet st taskId = some task) :
    updateStatus st now taskId status logEntry
      = (appSave st (statusUpdatedRecord task now status logEntry),
         some (statusUpdatedRecord task now status logEntry))
    ∧ (statusUpdatedRecord task now status logEntry).status = status := by
  exact ⟨appSetStatus_found st now taskId status logEntry task h, rfl⟩

/-- C2 amended witness: the COMPLETED task 9 is moved to PENDING. -/
theorem c2_update_status_witness :
    updateStatus c2State 11 "9" .pending none
      = (appSave c2State (statusUpdatedRecord c2Record 11 .pending none),
         some (statusUpdatedRecord c2Record 11 .pending none)) :=
  (c2_update_status_unguarded c2State 11 "9" .pending none c2Record (by decide)).1

/-- C4: evaluating the submission handler at the 404 scenario of
test_scheduler_error_404_logged_without_state_change: the code sets the
task to FAILED and appends a second log entry, where the claim (and the
test) expect the task to remain DISPATCHING with only the dispatch log. -/
theorem c4_submission_404_sets_failed :
    (appGet c4After "3").map TaskRecord.status = some .failed
    ∧ (appGet c4After "3").map TaskRecord.logs
        = some ["Dispatching to scheduler", "Scheduler returned 404: Not found"]
    ∧ (appGet c4After "3").map TaskRecord.status ≠ some .dispatching := by
  decide

/-- C5: save of task_state/repository.py writes the primary record with
its TTL and re-stamps all four index keys, but never writes the metadata
breadcrumb: the hash side of the store is untouched by save in general,
and after the save of the repository TTL test the breadcrumb key is
absent, where the test expects an hset on task:1:metadata with the grace
TTL. -/
theorem c5_save_writes_no_breadcrumb :
    (∀ (ttl : Nat) (st : RedisState) (task : TaskRecord),
      (tsSave ttl st task).hashes = st.hashes)
    ∧ (kvGet c5Saved.tasks (taskKey "1") = some c5Task
       ∧ kvGet c5Saved.ttls (taskKey "1") = some 1234
       ∧ kvGet c5Saved.sets "index:tasks" = some ["1"]
       ∧ kvGet c5Saved.ttls "index:tasks" = some 1234
       ∧ kvGet c5Saved.sets (serviceIndexKey "svc") = some ["1"]
       ∧ kvGet c5Saved.ttls (serviceIndexKey "svc") = some 1234
       ∧ kvGet c5Saved.sets (serviceUsersIndexKey "svc") = some ["user"]
       ∧ kvGet c5Saved.ttls (serviceUsersIndexKey "svc") = some 1234
       ∧ kvGet c5Saved.sets (serviceUserIndexKey "svc" "user") = some ["1"]
       ∧ kvGet c5Saved.ttls (serviceUserIndexKey "svc" "user") = some 1234
       ∧ kvGet c5Saved.hashes (metadataKey "1") = none
       ∧ c5Saved.hashes = []) :=
  ⟨fun _ _ _ => rfl, by decide⟩

/-- C7: the log entries stored by set_status and append_log are the raw
messages: after the dispatch flip and the acknowledgement append, the
record holds exactly the two bare messages, neither of which contains a
comma, so no entry has the form of an ISO-8601 timestamp followed by a
comma and the message. -/
theorem c7_logs_stored_without_timestamp :
    (appGet c7After2 "1").map TaskRecord.logs
      = some ["Dispatching to scheduler", "Scheduler acknowledged submission"]
    ∧ ("Dispatching to scheduler".data.contains ',') = false
    ∧ ("Scheduler acknowledged submission".data.contains ',') = false := by
  decide

/-- C1 counterexample: a TASK_CANCELLED event whose scheduler call fails
with a 500 response moves the task from CANCEL_REQUESTED to CANCELLED,
contradicting the claim that the status is left unchanged on a
non-403/404 scheduler error. -/
theorem c1_error_still_cancels :
    (appGet c1After "1").map TaskRecord.status = some .cancelled
    ∧ (appGet c1After "1").map TaskRecord.status ≠ some .cancelRequested := by
  decide

/-- C1 amended: the cancellation handler sets the task to FAILED exactly
on a 403 or 404 scheduler response and to CANCELLED in every other case:
on success, on a response error with any other status code, on scheduler
unavailability and on any other exception (the latter two after appending
an explanatory log). -/
theorem c1_cancellation_status_outcomes (st : AppState) (now : Nat) (task : TaskRecord)
    (h : appGet st task.taskId = some task) :
    (∀ code body url, code ≠ 403 → code ≠ 404 →
      (appGet (handleTaskCancellation (.responseError code body url) now st task.taskId)
          task.taskId).map TaskRecord.status = some .cancelled)
    ∧ (∀ code body url, code = 403 ∨ code = 404 →
      (appGet (handleTaskCancellation (.responseError code body url) now st task.taskId)
          task.taskId).map TaskRecord.status = some .failed)
    ∧ ((appGet (handleTaskCancellation .ok now st task.taskId) task.taskId).map
          TaskRecord.status = some .cancelled)
    ∧ (∀ url cause,
      (appGet (handleTaskCancellation (.unavailable url cause) now st task.taskId)
          task.taskId).map TaskRecord.status = some .cancelled)
    ∧ (∀ msg,
      (appGet (handleTaskCancellation (.failure msg) now st task.taskId)
          task.taskId).map TaskRecord.status = some .cancelled) := by
  refine ⟨?_, ?_, ?_, ?_, ?_⟩
  · intro code body url h403 h404
    have hne : ¬ (code = 403 ∨ code = 404) := by simp [h403, h404]
    simp only [handleTaskCancellation, if_neg hne]
    rw [appGet_setStatus_at st now task.taskId .cancelled (some "Task cancelled") task h rfl]
    rfl
  · intro code body url hcode
    simp only [handleTaskCancellation, if_pos hcode]
    rw [appGet_setStatus_at st now task.taskId .failed
      (some (schedulerReturnedLog code body)) task h rfl]
    rfl
  · simp only [handleTaskCancellation]
    rw [appGet_setStatus_at st now task.taskId .cancelled (some "Task cancelled") task h rfl]
    rfl
  · intro url cause
    simp only [handleTaskCancellation]
    have h1 := appGet_appendLog_at st now task.taskId (schedulerUnavailableLog url cause) task h rfl
    rw [appGet_setStatus_at _ now task.taskId .cancelled (some "Task cancelled")
      (logAppendedRecord task now (schedulerUnavailableLog url cause)) h1 rfl]
    rfl
  · intro msg
    simp only [handleTaskCancellation]
    have h1 := appGet_appendLog_at st now task.taskId ("Cancellation error: " ++ msg) task h rfl
    rw [appGet_setStatus_at _ now task.taskId .cancelled (some "Task cancelled")
      (logAppendedRecord task now ("Cancellation error: " ++ msg)) h1 rfl]
    rfl

/-- C1 amended witness: with the scheduler unavailable, the handler still
moves task 1 to CANCELLED. -/
theorem c1_cancellation_witness :
    (appGet (handleTaskCancellation (.unavailable "http://scheduler" "timeout") 9 c1State
        c1Record.taskId) c1Record.taskId).map TaskRecord.status = some .cancelled :=
  ((c1_cancellation_status_outcomes c1State 9 c1Record (by decide)).2.2.2.1)
    "http://scheduler" "timeout"

/-- C3: on TASK_SUBMITTED, a scheduler response of 403 or 404 sets the
task to FAILED with the Scheduler returned log; any other response error
leaves the store exactly as it was after the DISPATCHING flip, so the
task stays DISPATCHING with only the dispatch log added; scheduler
unavailability sets FAILED with the Scheduler unavailable log. -/
theorem c3_submission_error_paths (st : AppState) (now : Nat) (task : TaskRecord)
    (h : appGet st task.taskId = some task) :
    (∀ code body url, code = 403 ∨ code = 404 →
      appGet (handleTaskSubmission (.responseError code body url) now st task.taskId)
          task.taskId
        = some { task with
                 status := .failed,
                 updatedAt := now,
                 logs := task.logs
                   ++ ["Dispatching to scheduler", schedulerReturnedLog code body] })
    ∧ (∀ code body url, code ≠ 403 → code ≠ 404 →
      handleTaskSubmission (.responseError code body url) now st task.taskId
        = (appSetStatus st now task.taskId .dispatching (some "Dispatching to scheduler")).1
      ∧ appGet (handleTaskSubmission (.responseError code body url) now st task.taskId)
          task.taskId
        = some { task with
                 status := .dispatching,
                 updatedAt := now,
                 logs := task.logs ++ ["Dispatching to scheduler"] })
    ∧ (∀ url cause,
      appGet (handleTaskSubmission (.unavailable url cause) now st task.taskId) task.taskId
        = some { task with
                 status := .failed,
                 updatedAt := now,
                 logs := task.logs
                   ++ ["Dispatching to scheduler", schedulerUnavailableLog url cause] }) := by
  have hdneq : ("Dispatching to scheduler" : String) ≠ "" := by decide
  have hd := appGet_setStatus_at st now task.taskId .dispatching
    (some "Dispatching to scheduler") task h rfl
  refine ⟨?_, ?_, ?_⟩
  · intro code body url hcode
    simp only [handleTaskSubmission, if_pos hcode]
    rw [appGet_setStatus_at _ now task.taskId .failed (some (schedulerReturnedLog code body))
      _ hd rfl]
    have hne := schedulerReturnedLog_ne_empty code body
    simp [statusUpdatedRecord, hne, hdneq, List.append_assoc]
  · intro code body url h403 h404
    have hne : ¬ (code = 403 ∨ code = 404) := by simp [h403, h404]
    refine ⟨by simp only [handleTaskSubmission, if_neg hne], ?_⟩
    simp only [handleTaskSubmission, if_neg hne]
    rw [appGet_setStatus_at st now task.taskId .dispatching (some "Dispatching to scheduler")
      task h rfl]
    simp [statusUpdatedRecord, hdneq]
  · intro url cause
    simp only [handleTaskSubmission]
    rw [appGet_setStatus_at _ now task.taskId .failed
      (some (schedulerUnavailableLog url cause)) _ hd rfl]
    have hne := schedulerUnavailableLog_ne_empty url cause
    simp [statusUpdatedRecord, hne, hdneq, List.append_assoc]

/-- C3 witness: a 403 response moves the pending task 2 to FAILED with the
dispatch and rejection logs. -/
theorem c3_submission_witness :
    appGet (handleTaskSubmission (.responseError 403 "denied" "http://scheduler") 4 c3WitState
        c3WitTask.taskId) c3WitTask.taskId
      = some { c3WitTask with
               status := .failed,
               updatedAt := 4,
               logs := c3WitTask.logs
                 ++ ["Dispatching to scheduler", schedulerReturnedLog 403 "denied"] } :=
  ((c3_submission_error_paths c3WitState 4 c3WitTask (by decide)).1)
    403 "denied" "http://scheduler" (Or.inl rfl)

/-- C8 counterexample: cancelling the COMPLETED task 4 with matching
ownership filters returns the record unchanged but enqueues no
TASK_CANCELLED event, contradicting the claim that an event is always
enqueued when the task is found and passes the filter. -/
theorem c8_terminal_cancel_enqueues_nothing :
    cancelTask c8State 2 "4" (some "sync") (some "dana") = (c8State, [], some c8Record)
    ∧ (cancelTask c8State 2 "4" (some "sync") (some "dana")).2.1 = [] := by
  decide

/-- C8 amended: for a cancel call that finds the task and passes the
ownership filters, a TASK_CANCELLED event is enqueued exactly when the
task is not in a terminal status; for a terminal task the existing record
is returned unchanged and nothing is enqueued. -/
theorem c8_cancel_event_iff_not_terminal (st : AppState) (now : Nat) (taskId : String)
    (serviceFilter userFilter : Option String) (task : TaskRecord)
    (h : appGet st taskId = some task)
    (hs : filterMismatch serviceFilter task.service = false)
    (hu : filterMismatch userFilter task.userId = false) :
    (terminalStatus task.status = true →
      cancelTask st now taskId serviceFilter userFilter = (st, [], some task))
    ∧ (terminalStatus task.status = false →
      (cancelTask st now taskId serviceFilter userFilter).2.1
        = [{ type := .taskCancelled, taskId := taskId,
             service := task.service, userId := task.userId }]) := by
  constructor
  · intro hterm
    simp [cancelTask, h, hs, hu, hterm]
  · intro hterm
    by_cases hcr : task.status = .cancelRequested
    · simp [cancelTask, terminalStatus, h, hs, hu, hterm, hcr]
    · simp [cancelTask, h, hs, hu, hterm, hcr,
        appSetStatus_found st now taskId .cancelRequested (some "Cancellation requested") task h,
        statusUpdatedRecord]

/-- C8 amended witness: cancelling the RUNNING task 5 enqueues exactly one
TASK_CANCELLED event. -/
theorem c8_cancel_witness :
    (cancelTask c8WitState 3 "5" (some "sync") (some "erin")).2.1
      = [{ type := .taskCancelled, taskId := "5", service := c8WitRecord.service,
           userId := c8WitRecord.userId }] :=
  (c8_cancel_event_iff_not_terminal c8WitState 3 "5" (some "sync") (some "erin") c8WitRecord
    (by decide) (by decide) (by decide)).2 (by decide)
